import Mathlib

/-!
Verification of the FrameFlow pipeline.

This file gives a shallow embedding in Lean 4 of the parts of the FrameFlow
repository that the verified claims are about, and proves (or refutes) each
claim against that embedding:

* `src/integrations/nebius.py` — cosine similarity over embedding vectors and
  the `CharacterConsistencyManager` (store / get / validate).  Embedding
  vectors are modelled over `ℝ`; the external embedding backend (an HTTP
  call) is modelled as an explicit function parameter `embed`; the in-memory
  dict `character_embeddings` is modelled as a partial map
  `String → Option CharacterData`; writing the JSON blob to disk is I/O and
  is not modelled.
* `src/mcp_servers/storyboard_visualizer/moment_detector.py` — keyword
  scoring and key-moment selection.  Python float scores are modelled as `ℚ`;
  Python's stable `sorted` is modelled by `List.insertionSort`, which is a
  stable sort.
* `src/mcp_servers/screenplay_generator/story_analyzer.py` — act structures
  and scene distribution.
* `src/core/schemas.py` — `ScreenplayOutput.to_formatted_text`.
* `src/mcp_servers/screenplay_generator/scene_writer.py` — `_parse_location`,
  with the two Python regexes embedded as specialised backtracking matchers
  that explore alternatives in the same order as the `re` module.
-/

open List

/-! ### String helpers shared by several modules -/

/-- Models Python `str.lower()` (character-by-character, ASCII-adequate). -/
def pyLower (s : String) : String :=
  String.mk (s.data.map Char.toLower)

/-- Models Python `str.upper()` (character-by-character, ASCII-adequate). -/
def pyUpper (s : String) : String :=
  String.mk (s.data.map Char.toUpper)

/-- Models `character_name.lower().replace(' ', '_')` from
`src/integrations/nebius.py` (the slug used as dictionary key). -/
def slugify (character_name : String) : String :=
  String.mk ((pyLower character_name).data.map (fun c => if c = ' ' then '_' else c))

/-! ### `src/integrations/nebius.py` — vectors and cosine similarity

`NebiusClient.cosine_similarity` converts both lists to numpy arrays and
computes `dot / (norm1 * norm2)` with a guard returning `0.0` when either
norm is zero.  `np.dot` on 1-d arrays is the sum of pointwise products and
`np.linalg.norm` is the Euclidean norm. -/

/-- Models `np.dot(vec1, vec2)` for 1-d vectors. -/
def np_dot (vec1 vec2 : List ℝ) : ℝ :=
  (List.zipWith (fun a b => a * b) vec1 vec2).sum

/-- Models `np.linalg.norm(vec)` (Euclidean norm). -/
noncomputable def np_norm (vec : List ℝ) : ℝ :=
  Real.sqrt ((vec.map (fun a => a * a)).sum)

/-- Models `NebiusClient.cosine_similarity` (nebius.py lines 98-123):
guard `if norm1 == 0 or norm2 == 0: return 0.0`, otherwise
`dot_product / (norm1 * norm2)`. -/
noncomputable def cosine_similarity (embedding1 embedding2 : List ℝ) : ℝ :=
  haveI : Decidable (np_norm embedding1 = 0 ∨ np_norm embedding2 = 0) :=
    Classical.propDecidable _
  if np_norm embedding1 = 0 ∨ np_norm embedding2 = 0 then 0
  else np_dot embedding1 embedding2 / (np_norm embedding1 * np_norm embedding2)

lemma sum_sq_nonneg (v : List ℝ) : 0 ≤ (v.map (fun a => a * a)).sum := by
  apply List.sum_nonneg
  intro x hx
  obtain ⟨a, _, rfl⟩ := List.mem_map.mp hx
  exact mul_self_nonneg a

lemma np_norm_sq (v : List ℝ) : np_norm v * np_norm v = (v.map (fun a => a * a)).sum :=
  Real.mul_self_sqrt (sum_sq_nonneg v)

lemma np_dot_self (v : List ℝ) : np_dot v v = (v.map (fun a => a * a)).sum := by
  unfold np_dot
  induction v with
  | nil => rfl
  | cons a t ih => simp [List.zipWith, ih]

lemma np_norm_ne_zero_sum {v : List ℝ} (h : np_norm v ≠ 0) :
    (v.map (fun a => a * a)).sum ≠ 0 := by
  intro hs
  apply h
  unfold np_norm
  rw [hs, Real.sqrt_zero]

/-- C6: `cosine_similarity` computes `dot/(norm*norm)` with the zero-norm
guard: on any two vectors of nonzero norm it equals the unguarded quotient;
a vector of nonzero norm has self-similarity exactly 1 (hence within 1e-6 of
1.0); orthogonal vectors of nonzero norm get exactly 0 (hence within 1e-6 of
0.0); and whenever either vector has zero norm the result is exactly 0, the
division never being reached. -/
theorem cosine_similarity_ok :
    (∀ v1 v2 : List ℝ, np_norm v1 ≠ 0 → np_norm v2 ≠ 0 →
      cosine_similarity v1 v2 = np_dot v1 v2 / (np_norm v1 * np_norm v2)) ∧
    (∀ v : List ℝ, np_norm v ≠ 0 →
      cosine_similarity v v = 1 ∧ |cosine_similarity v v - 1| ≤ 1 / 1000000) ∧
    (∀ v1 v2 : List ℝ, np_norm v1 ≠ 0 → np_norm v2 ≠ 0 → np_dot v1 v2 = 0 →
      cosine_similarity v1 v2 = 0 ∧ |cosine_similarity v1 v2| ≤ 1 / 1000000) ∧
    (∀ v1 v2 : List ℝ, np_norm v1 = 0 ∨ np_norm v2 = 0 → cosine_similarity v1 v2 = 0) := by
  have hquot : ∀ v1 v2 : List ℝ, np_norm v1 ≠ 0 → np_norm v2 ≠ 0 →
      cosine_similarity v1 v2 = np_dot v1 v2 / (np_norm v1 * np_norm v2) := by
    intro v1 v2 h1 h2
    unfold cosine_similarity
    rw [if_neg]
    push_neg
    exact ⟨h1, h2⟩
  refine ⟨hquot, ?_, ?_, ?_⟩
  · intro v h
    have hself : cosine_similarity v v = 1 := by
      rw [hquot v v h h, np_dot_self, np_norm_sq]
      exact div_self (np_norm_ne_zero_sum h)
    refine ⟨hself, ?_⟩
    rw [hself]
    norm_num
  · intro v1 v2 h1 h2 hdot
    have hz : cosine_similarity v1 v2 = 0 := by
      rw [hquot v1 v2 h1 h2, hdot, zero_div]
    refine ⟨hz, ?_⟩
    rw [hz]
    norm_num
  · intro v1 v2 h
    unfold cosine_similarity
    rw [if_pos h]

/-- Witness for C6 at concrete vectors: `[3,4]` (norm 5) with itself,
`[1,0]` against the orthogonal `[0,1]`, and the zero vector `[0,0]`. -/
theorem cosine_similarity_ok_witness :
    cosine_similarity [3, 4] [3, 4] = 1 ∧
    cosine_similarity [1, 0] [0, 1] = 0 ∧
    cosine_similarity [0, 0] [5, 5] = 0 := by
  have h34 : np_norm [3, 4] ≠ 0 := by
    unfold np_norm
    rw [Real.sqrt_ne_zero']
    norm_num
  have h10 : np_norm [1, 0] ≠ 0 := by
    unfold np_norm
    rw [Real.sqrt_ne_zero']
    norm_num
  have h01 : np_norm [0, 1] ≠ 0 := by
    unfold np_norm
    rw [Real.sqrt_ne_zero']
    norm_num
  have h00 : np_norm [0, 0] = 0 := by
    unfold np_norm
    norm_num
  have hdot : np_dot [1, 0] [0, 1] = 0 := by
    unfold np_dot
    norm_num
  exact ⟨(cosine_similarity_ok.2.1 [3, 4] h34).1,
    (cosine_similarity_ok.2.2.1 [1, 0] [0, 1] h10 h01 hdot).1,
    cosine_similarity_ok.2.2.2 [0, 0] [5, 5] (Or.inl h00)⟩

/-! ### `src/integrations/nebius.py` — `CharacterConsistencyManager`

The manager's `self.character_embeddings` dict is modelled as a partial map
`String → Option CharacterData`; the external embedding API
(`self.client.create_embedding`) is a function parameter `embed`; saving the
JSON blob to disk (`_save_embeddings`) is I/O and not modelled.  Stateful
methods return the updated map. -/

/-- One value of the `character_embeddings` dict, as built by
`store_character` (nebius.py lines 197-204). -/
structure CharacterData where
  name : String
  visual_description : String
  embedding : List ℝ
  metadata : List (String × String)
  frame_count : Nat
  last_updated : Option String

/-- Models `CharacterConsistencyManager.store_character` (nebius.py lines
174-209): embed the description, and store a fresh record (with
`frame_count` 0 and `last_updated` `None`) under the slug, returning the
character id together with the updated map. -/
def store_character (embed : String → List ℝ)
    (character_embeddings : String → Option CharacterData)
    (character_name visual_description : String)
    (metadata : Option (List (String × String))) :
    String × (String → Option CharacterData) :=
  let embedding := embed visual_description
  let character_id := slugify character_name
  let char_data : CharacterData :=
    { name := character_name
      visual_description := visual_description
      embedding := embedding
      metadata := metadata.getD []
      frame_count := 0
      last_updated := none }
  (character_id, fun k => if k = character_id then some char_data else character_embeddings k)

/-- The state produced by a successful `get_character_description` call:
the fetched record with its `frame_count` incremented in place
(nebius.py line 241). -/
def updated_state (character_embeddings : String → Option CharacterData)
    (character_name : String) (char_data : CharacterData) :
    String → Option CharacterData :=
  fun k => if k = slugify character_name then
      some { char_data with frame_count := char_data.frame_count + 1 }
    else character_embeddings k

/-- Models `CharacterConsistencyManager.get_character_description`
(nebius.py lines 211-243): raising `ValueError` is modelled as
`Except.error`; the `context` branch is a `pass` in the source.  Returns the
stored description together with the updated map. -/
def get_character_description (character_embeddings : String → Option CharacterData)
    (character_name : String) (context : Option String) :
    Except String (String × (String → Option CharacterData)) :=
  match character_embeddings (slugify character_name) with
  | none => Except.error ("Character " ++ character_name ++ " not found")
  | some char_data =>
      Except.ok (char_data.visual_description,
        updated_state character_embeddings character_name char_data)

/-- Models `CharacterConsistencyManager.validate_consistency` (nebius.py
lines 245-278). -/
noncomputable def validate_consistency (embed : String → List ℝ)
    (character_embeddings : String → Option CharacterData)
    (character_name new_description : String) (threshold : ℝ) : Bool × ℝ :=
  match character_embeddings (slugify character_name) with
  | none => (false, 0)
  | some char_data =>
      let similarity := cosine_similarity char_data.embedding (embed new_description)
      haveI : Decidable (threshold ≤ similarity) := Classical.propDecidable _
      (if threshold ≤ similarity then true else false, similarity)

/-- C5: `validate_consistency` returns `(false, 0.0)` exactly on unknown
slugs; on a stored character it returns the cosine similarity between the
stored embedding and the embedding of the new description, with the boolean
holding iff that similarity is at least the threshold. -/
theorem validate_consistency_ok :
    (∀ (embed : String → List ℝ) (st : String → Option CharacterData)
        (name desc : String) (th : ℝ),
      st (slugify name) = none → validate_consistency embed st name desc th = (false, 0)) ∧
    (∀ (embed : String → List ℝ) (st : String → Option CharacterData)
        (name desc : String) (th : ℝ) (cd : CharacterData),
      st (slugify name) = some cd →
      (validate_consistency embed st name desc th).2 =
        cosine_similarity cd.embedding (embed desc) ∧
      ((validate_consistency embed st name desc th).1 = true ↔
        th ≤ (validate_consistency embed st name desc th).2)) := by
  constructor
  · intro embed st name desc th h
    unfold validate_consistency
    rw [h]
  · intro embed st name desc th cd h
    unfold validate_consistency
    rw [h]
    refine ⟨rfl, ?_⟩
    by_cases hle : th ≤ cosine_similarity cd.embedding (embed desc)
    · simp [hle]
    · simp [hle]

/-- A stub embedding backend for the concrete witnesses. -/
def embed0 : String → List ℝ := fun _ => [1]

/-- A concrete stored character record for the witnesses. -/
def cd0 : CharacterData :=
  { name := "Alice"
    visual_description := "Tall, dark hair"
    embedding := [1]
    metadata := []
    frame_count := 0
    last_updated := none }

/-- A concrete manager state for the witnesses: only the slug `alice` is
stored. -/
def st0 : String → Option CharacterData :=
  fun k => if k = "alice" then some cd0 else none

lemma st0_alice : st0 (slugify "Alice") = some cd0 := by
  have h : slugify "Alice" = "alice" := by decide
  rw [h]
  unfold st0
  rw [if_pos rfl]

lemma st0_bob : st0 (slugify "Bob West") = none := by
  have h : slugify "Bob West" = "bob_west" := by decide
  rw [h]
  unfold st0
  rw [if_neg (by decide)]

/-- Witness for C5: an unknown name gives `(false, 0)`, and for the stored
character the score component is the cosine similarity of the stored and
freshly computed embeddings. -/
theorem validate_consistency_ok_witness :
    validate_consistency embed0 st0 "Bob West" "anything" (85 / 100) = (false, 0) ∧
    (validate_consistency embed0 st0 "Alice" "Tall man" (85 / 100)).2 =
      cosine_similarity cd0.embedding (embed0 "Tall man") := by
  exact ⟨validate_consistency_ok.1 embed0 st0 "Bob West" "anything" (85 / 100) st0_bob,
    (validate_consistency_ok.2 embed0 st0 "Alice" "Tall man" (85 / 100) cd0 st0_alice).1⟩

/-- C7: `get_character_description` fails with the not-found error exactly
when the slug is unknown; otherwise it returns the stored visual description
verbatim and a state in which only that character changed, and only by
incrementing `frame_count` by one; the `context` argument has no effect. -/
theorem get_character_description_ok :
    (∀ (st : String → Option CharacterData) (name : String) (ctx : Option String),
      st (slugify name) = none →
      get_character_description st name ctx =
        Except.error ("Character " ++ name ++ " not found")) ∧
    (∀ (st : String → Option CharacterData) (name : String) (ctx : Option String)
        (cd : CharacterData),
      st (slugify name) = some cd →
      get_character_description st name ctx =
        Except.ok (cd.visual_description, updated_state st name cd) ∧
      updated_state st name cd (slugify name) =
        some { cd with frame_count := cd.frame_count + 1 } ∧
      (∀ k, k ≠ slugify name → updated_state st name cd k = st k)) ∧
    (∀ (st : String → Option CharacterData) (name : String) (c1 c2 : Option String),
      get_character_description st name c1 = get_character_description st name c2) := by
  refine ⟨?_, ?_, ?_⟩
  · intro st name ctx h
    unfold get_character_description
    rw [h]
  · intro st name ctx cd h
    refine ⟨?_, ?_, ?_⟩
    · unfold get_character_description
      rw [h]
    · unfold updated_state
      rw [if_pos rfl]
    · intro k hk
      unfold updated_state
      rw [if_neg hk]
  · intro st name c1 c2
    rfl

/-- Witness for C7 at the concrete state `st0`: unknown `Diana` errors, the
stored `Alice` yields her description with `frame_count` bumped from 0 to 1,
and an unrelated key is untouched. -/
theorem get_character_description_ok_witness :
    get_character_description st0 "Diana" none =
      Except.error ("Character " ++ "Diana" ++ " not found") ∧
    get_character_description st0 "Alice" (some "a rainy scene") =
      Except.ok (cd0.visual_description, updated_state st0 "Alice" cd0) ∧
    updated_state st0 "Alice" cd0 (slugify "Alice") =
      some { cd0 with frame_count := cd0.frame_count + 1 } ∧
    updated_state st0 "Alice" cd0 "bob" = st0 "bob" := by
  have hd : st0 (slugify "Diana") = none := by
    have h : slugify "Diana" = "diana" := by decide
    rw [h]
    unfold st0
    rw [if_neg (by decide)]
  have hb : ("bob" : String) ≠ slugify "Alice" := by decide
  obtain ⟨h1, h2, h3⟩ :=
    get_character_description_ok.2.1 st0 "Alice" (some "a rainy scene") cd0 st0_alice
  exact ⟨get_character_description_ok.1 st0 "Diana" none hd, h1, h2, h3 "bob" hb⟩

/-- C10: after any `store_character` call the record under the slug has
`frame_count` 0 and `last_updated` `None` (so re-storing discards any
accumulated usage count), and every other key of the map is unchanged. -/
theorem store_character_ok :
    ∀ (embed : String → List ℝ) (st : String → Option CharacterData)
      (name desc : String) (md : Option (List (String × String))),
      (store_character embed st name desc md).1 = slugify name ∧
      (store_character embed st name desc md).2 (slugify name) =
        some { name := name
               visual_description := desc
               embedding := embed desc
               metadata := md.getD []
               frame_count := 0
               last_updated := none } ∧
      (∀ k, k ≠ slugify name → (store_character embed st name desc md).2 k = st k) := by
  intro embed st name desc md
  refine ⟨rfl, ?_, ?_⟩
  · simp [store_character]
  · intro k hk
    simp [store_character, hk]

/-- A state in which `alice` already has a nonzero usage counter, to witness
that re-storing resets it. -/
def st1 : String → Option CharacterData :=
  fun k => if k = "alice" then some { cd0 with frame_count := 5 } else none

/-- Witness for C10: re-storing `Alice` over a record with `frame_count` 5
yields a record with `frame_count` 0 and `last_updated` `None`, while the
unrelated key `bob` is unchanged. -/
theorem store_character_ok_witness :
    (store_character embed0 st1 "Alice" "new look" none).2 (slugify "Alice") =
      some { name := "Alice"
             visual_description := "new look"
             embedding := embed0 "new look"
             metadata := []
             frame_count := 0
             last_updated := none } ∧
    (store_character embed0 st1 "Alice" "new look" none).2 "bob" = st1 "bob" := by
  obtain ⟨_, h2, h3⟩ := store_character_ok embed0 st1 "Alice" "new look" none
  exact ⟨h2, h3 "bob" (by decide)⟩

/-! ### `src/mcp_servers/storyboard_visualizer/moment_detector.py`

`KeyMomentDetector._parse_scenes` splits the screenplay text on a
scene-heading regex and numbers the resulting scenes consecutively from 1;
the selection pipeline (`identify_key_moments` lines 40-66) only consumes
the parsed scene list.  We embed the pipeline on the parsed scene list, the
parse invariant (scene numbers are exactly `1..k` in scan order) appearing
as the hypothesis of the claim C1 theorem.  Python float scores are
modelled as `ℚ` and Python's stable `sorted` as `List.insertionSort`. -/

/-- One element of the list built by `_parse_scenes` (lines 90-99). -/
structure SceneData where
  scene_number : Nat
  heading : String
  content : String
  description : String
  tone : String
  characters : List String
  setting : String
  score : ℚ
deriving DecidableEq

/-- Prefix test on character lists (case-sensitive). -/
def leadsWith : List Char → List Char → Bool
  | [], _ => true
  | _ :: _, [] => false
  | c :: cs, d :: ds => c = d && leadsWith cs ds

/-- Substring test on character lists. -/
def hasSub (needle : List Char) : List Char → Bool
  | [] => needle.isEmpty
  | c :: t => leadsWith needle (c :: t) || hasSub needle t

/-- Models the Python membership test `needle in haystack` on strings. -/
def strIn (needle haystack : String) : Bool :=
  hasSub needle.data haystack.data

/-- The `action` dictionary of `_load_visual_keywords` (lines 244-259), in
insertion order. -/
def action_keywords : List (String × ℚ) :=
  [("fight", 3), ("chase", 5/2), ("explosion", 5/2), ("crash", 2), ("runs", 3/2),
   ("enters", 1), ("reveals", 2), ("discovers", 2), ("opens", 3/2), ("looks", 1),
   ("watches", 1), ("fire", 2), ("blood", 2), ("kiss", 2)]

/-- The `emotional` dictionary of `_load_visual_keywords` (lines 260-269). -/
def emotional_keywords : List (String × ℚ) :=
  [("tears", 3/2), ("screams", 3/2), ("laughs", 1), ("cries", 3/2), ("shouts", 1),
   ("whispers", 1), ("smiles", 1/2), ("frowns", 1/2)]

/-- The `cinematic` dictionary of `_load_visual_keywords` (lines 270-278);
loaded but never read by `_score_scenes`. -/
def cinematic_keywords : List (String × ℚ) :=
  [("darkness", 1), ("light", 1), ("shadow", 3/2), ("rain", 1), ("storm", 3/2),
   ("sunset", 1), ("dawn", 1)]

/-- The score the loop body of `_score_scenes` (lines 116-154) assigns to
one scene, given the total number of scenes. -/
def score_scene (total_scenes : Nat) (scene : SceneData) : ℚ :=
  let content := pyLower scene.content
  let score : ℚ := 0
  let score := action_keywords.foldl
    (fun s kw => if strIn kw.1 content then s + kw.2 else s) score
  let score := emotional_keywords.foldl
    (fun s kw => if strIn kw.1 content then s + kw.2 * (7/10) else s) score
  let num_characters := scene.characters.length
  let score := if 2 ≤ num_characters then score + 3/2 else score
  let scene_num := scene.scene_number
  let score :=
    if scene_num = 1 then score + 2
    else if scene_num = total_scenes then score + 5/2
    else if (scene_num : ℚ) ≤ (total_scenes : ℚ) * (1/4) then score + 1
    else if (total_scenes : ℚ) * (3/4) ≤ (scene_num : ℚ) then score + 3/2
    else score
  let content_length := content.length
  if 500 < content_length then score + 1 else score

/-- Models `KeyMomentDetector._score_scenes` (lines 106-156): every scene
gets its computed score written into its `score` field. -/
def score_scenes (scenes : List SceneData) : List SceneData :=
  scenes.map (fun scene => { scene with score := score_scene scenes.length scene })

/-- Sum of the weights of the action keywords occurring in `content`
(spec-side formulation of C2). -/
def action_keyword_total (content : String) : ℚ :=
  ((action_keywords.filter (fun kw => strIn kw.1 content)).map (fun kw => kw.2)).sum

/-- Sum of the weights of the emotional keywords occurring in `content`
(spec-side formulation of C2). -/
def emotional_keyword_total (content : String) : ℚ :=
  ((emotional_keywords.filter (fun kw => strIn kw.1 content)).map (fun kw => kw.2)).sum

/-- Positional bonus of C2: first scene +2.0, last scene +2.5, first
quartile +1.0, last quartile +1.5 (mutually exclusive, in that order). -/
def positional_bonus (total_scenes scene_num : Nat) : ℚ :=
  if scene_num = 1 then 2
  else if scene_num = total_scenes then 5/2
  else if (scene_num : ℚ) ≤ (total_scenes : ℚ) * (1/4) then 1
  else if (total_scenes : ℚ) * (3/4) ≤ (scene_num : ℚ) then 3/2
  else 0

/-- The score formula as claim C2 states it: action weights occurring, plus
0.7 times the emotional weights occurring, nothing for cinematic keywords,
plus 1.5 for ≥2 characters, plus the positional bonus, plus 1.0 for content
longer than 500 characters. -/
def claimed_score (total_scenes : Nat) (scene : SceneData) : ℚ :=
  action_keyword_total (pyLower scene.content)
  + (7/10) * emotional_keyword_total (pyLower scene.content)
  + (if 2 ≤ scene.characters.length then 3/2 else 0)
  + positional_bonus total_scenes scene.scene_number
  + (if 500 < (pyLower scene.content).length then 1 else 0)

lemma foldl_action_keywords (content : String) :
    ∀ (l : List (String × ℚ)) (init : ℚ),
      l.foldl (fun s kw => if strIn kw.1 content then s + kw.2 else s) init
        = init + ((l.filter (fun kw => strIn kw.1 content)).map (fun kw => kw.2)).sum := by
  intro l
  induction l with
  | nil => intro init; simp
  | cons a t ih =>
    intro init
    rw [List.foldl_cons]
    by_cases h : strIn a.1 content
    · rw [if_pos h, ih, List.filter_cons, if_pos h, List.map_cons, List.sum_cons]
      ring
    · rw [if_neg h, ih, List.filter_cons, if_neg h]

lemma foldl_emotional_keywords (content : String) :
    ∀ (l : List (String × ℚ)) (init : ℚ),
      l.foldl (fun s kw => if strIn kw.1 content then s + kw.2 * (7/10) else s) init
        = init + (7/10) * ((l.filter (fun kw => strIn kw.1 content)).map (fun kw => kw.2)).sum := by
  intro l
  induction l with
  | nil => intro init; simp
  | cons a t ih =>
    intro init
    rw [List.foldl_cons]
    by_cases h : strIn a.1 content
    · rw [if_pos h, ih, List.filter_cons, if_pos h, List.map_cons, List.sum_cons]
      ring
    · rw [if_neg h, ih, List.filter_cons, if_neg h]

lemma score_scene_eq_claimed (total_scenes : Nat) (scene : SceneData) :
    score_scene total_scenes scene = claimed_score total_scenes scene := by
  unfold score_scene claimed_score action_keyword_total emotional_keyword_total positional_bonus
  dsimp only
  rw [foldl_action_keywords, foldl_emotional_keywords]
  split_ifs <;> ring

/-- C2: the score `_score_scenes` assigns to each scene is exactly the sum
claimed: occurring action-keyword weights, plus 0.7 times occurring
emotional-keyword weights (cinematic keywords contributing nothing), plus
1.5 for at least two characters, plus the positional bonus, plus 1.0 for
content longer than 500 characters. -/
theorem score_scenes_ok : ∀ scenes : List SceneData,
    score_scenes scenes =
      scenes.map (fun scene => { scene with score := claimed_score scenes.length scene }) := by
  intro scenes
  unfold score_scenes
  exact List.map_congr_left (fun sc _ => by rw [score_scene_eq_claimed])

/-- The key of `sorted(scored_scenes, key=lambda x: x["score"], reverse=True)`
(line 47): a stable descending sort by score, modelled as a stable sort by
this relation. -/
def score_desc (a b : SceneData) : Prop := b.score ≤ a.score

/-- The key of `sorted(selected_scenes, key=lambda x: x["scene_number"])`
(line 50): ascending scene number. -/
def num_asc (a b : SceneData) : Prop := a.scene_number ≤ b.scene_number

instance : DecidableRel score_desc :=
  fun a b => inferInstanceAs (Decidable (b.score ≤ a.score))

instance : DecidableRel num_asc :=
  fun a b => inferInstanceAs (Decidable (a.scene_number ≤ b.scene_number))

instance : IsTotal SceneData score_desc :=
  ⟨fun a b => le_total b.score a.score⟩

instance : IsTrans SceneData score_desc :=
  ⟨fun _ _ _ hab hbc => le_trans hbc hab⟩

instance : IsTotal SceneData num_asc :=
  ⟨fun a b => le_total a.scene_number b.scene_number⟩

instance : IsTrans SceneData num_asc :=
  ⟨fun _ _ _ hab hbc => le_trans hab hbc⟩

/-- One moment descriptor, as built in the loop of `identify_key_moments`
(lines 54-64). -/
structure Moment where
  frame_number : Nat
  scene_number : Nat
  description : String
  emotional_tone : String
  characters : List String
  setting : String
  importance : ℚ
deriving DecidableEq

/-- The moment dict built from `enumerate(selected_scenes)` (lines 55-63):
`frame_number` is the enumeration index plus one. -/
def mk_moment (idx : Nat) (scene_data : SceneData) : Moment :=
  { frame_number := idx + 1
    scene_number := scene_data.scene_number
    description := scene_data.description
    emotional_tone := scene_data.tone
    characters := scene_data.characters
    setting := scene_data.setting
    importance := scene_data.score }

/-- Models `KeyMomentDetector.identify_key_moments` (lines 25-66) from the
parsed scene list onward: score, stable-sort descending by score, take the
first `num_frames`, re-sort ascending by scene number, and number the frames
from 1. -/
def identify_key_moments (scenes : List SceneData) (num_frames : Nat) : List Moment :=
  let scored_scenes := score_scenes scenes
  let selected_scenes := (scored_scenes.insertionSort score_desc).take num_frames
  let selected_sorted := selected_scenes.insertionSort num_asc
  selected_sorted.mapIdx mk_moment

lemma pair_sublist_pos {α : Type*} :
    ∀ (l : List α) (a b : α) (i j : Nat) (hi : i < l.length) (hj : j < l.length),
      i < j → l[i] = a → l[j] = b → [a, b] <+ l := by
  intro l
  induction l with
  | nil =>
    intro a b i j hi
    exact absurd hi (Nat.not_lt_zero i)
  | cons c t ih =>
    intro a b i j hi hj hij ha hb
    match i, j with
    | 0, 0 => exact absurd hij (lt_irrefl 0)
    | 0, jj + 1 =>
      rw [List.getElem_cons_zero] at ha
      rw [List.getElem_cons_succ] at hb
      subst ha
      apply List.Sublist.cons₂
      exact List.singleton_sublist.mpr (hb ▸ List.getElem_mem _)
    | ii + 1, 0 => exact absurd hij (by omega)
    | ii + 1, jj + 1 =>
      rw [List.getElem_cons_succ] at ha
      rw [List.getElem_cons_succ] at hb
      exact List.Sublist.cons c
        (ih a b ii jj (by simpa using hi) (by simpa using hj) (by omega) ha hb)

lemma sublist_pair_pos {α : Type*} {a b : α} :
    ∀ {l : List α}, [a, b] <+ l →
      ∃ (i j : Nat) (hi : i < l.length) (hj : j < l.length), i < j ∧ l[i] = a ∧ l[j] = b := by
  intro l
  induction l with
  | nil =>
    intro h
    exact absurd h (by simp)
  | cons c t ih =>
    intro h
    cases h with
    | cons _ h1 =>
      obtain ⟨i, j, hi, hj, hij, ha, hb⟩ := ih h1
      refine ⟨i + 1, j + 1, by simpa using hi, by simpa using hj, by omega, ?_, ?_⟩
      · rw [List.getElem_cons_succ]
        exact ha
      · rw [List.getElem_cons_succ]
        exact hb
    | cons₂ _ h1 =>
      have hbmem : b ∈ t := List.singleton_sublist.mp h1
      obtain ⟨j, hj, hb⟩ := List.mem_iff_getElem.mp hbmem
      refine ⟨0, j + 1, by simp, by simpa using hj, by omega, ?_, ?_⟩
      · rw [List.getElem_cons_zero]
      · rw [List.getElem_cons_succ]
        exact hb

lemma select_pipeline_ok (scored : List SceneData) (n : Nat) (result : List Moment)
    (hres : result = (((scored.insertionSort score_desc).take n).insertionSort num_asc).mapIdx mk_moment)
    (hnum : scored.map SceneData.scene_number = List.range' 1 scored.length)
    (hn2 : n ≤ scored.length) :
    result.length = n ∧
    result.map Moment.frame_number = List.range' 1 n ∧
    List.Pairwise (fun a b => a < b) (result.map Moment.scene_number) ∧
    (∀ m ∈ result, ∃ x ∈ scored, m.scene_number = x.scene_number ∧ m.importance = x.score) ∧
    (∀ m ∈ result, ∀ s ∈ scored, s.scene_number ∉ result.map Moment.scene_number →
      s.score < m.importance ∨ (s.score = m.importance ∧ m.scene_number < s.scene_number)) := by
  set S := scored.insertionSort score_desc with hS
  set sel := S.take n with hsel
  set A := sel.insertionSort num_asc with hA
  have hpermS : S ~ scored := List.perm_insertionSort score_desc scored
  have hsortS : List.Sorted score_desc S := List.sorted_insertionSort score_desc scored
  have hlenS : S.length = scored.length := List.length_insertionSort score_desc scored
  have hlen_sel : sel.length = n := by
    rw [hsel, List.length_take, hlenS]
    exact min_eq_left hn2
  have hpermA : A ~ sel := List.perm_insertionSort num_asc sel
  have hsortA : List.Sorted num_asc A := List.sorted_insertionSort num_asc sel
  have hlenA : A.length = n := by
    rw [hA, List.length_insertionSort, hlen_sel]
  have hnodup_num_scored : (scored.map SceneData.scene_number).Nodup := by
    rw [hnum]
    exact List.nodup_range' 1 scored.length
  have hnodup_scored : scored.Nodup := List.Nodup.of_map SceneData.scene_number hnodup_num_scored
  have hnodupS : S.Nodup := hpermS.nodup_iff.mpr hnodup_scored
  have hnodup_numS : (S.map SceneData.scene_number).Nodup :=
    ((hpermS.map SceneData.scene_number).nodup_iff).mpr hnodup_num_scored
  have hsel_sub : sel <+ S := by
    rw [hsel]
    exact List.take_sublist n S
  have hnodup_num_sel : (sel.map SceneData.scene_number).Nodup :=
    List.Nodup.sublist (hsel_sub.map SceneData.scene_number) hnodup_numS
  have hnodup_numA : (A.map SceneData.scene_number).Nodup :=
    ((hpermA.map SceneData.scene_number).nodup_iff).mpr hnodup_num_sel
  have hres_len : result.length = n := by
    rw [hres, List.length_mapIdx, hlenA]
  have hframe : result.map Moment.frame_number = List.range' 1 n := by
    apply List.ext_getElem
    · rw [List.length_map, hres_len, List.length_range']
    · intro i h1 h2
      simp only [hres, List.getElem_map, List.getElem_mapIdx, List.getElem_range']
      dsimp only [mk_moment]
      omega
  have hnums : result.map Moment.scene_number = A.map SceneData.scene_number := by
    apply List.ext_getElem
    · rw [List.length_map, hres_len, List.length_map, hlenA]
    · intro i h1 h2
      simp only [hres, List.getElem_map, List.getElem_mapIdx]
      dsimp only [mk_moment]
  have hpair : List.Pairwise (fun a b => a < b) (result.map Moment.scene_number) := by
    rw [hnums, List.pairwise_iff_getElem]
    intro i j hi hj hij
    have hiA : i < A.length := by
      rw [List.length_map] at hi
      exact hi
    have hjA : j < A.length := by
      rw [List.length_map] at hj
      exact hj
    have hle : num_asc A[i] A[j] := List.pairwise_iff_getElem.mp hsortA i j hiA hjA hij
    have hne : (A.map SceneData.scene_number)[i] ≠ (A.map SceneData.scene_number)[j] := by
      intro hcon
      have := (hnodup_numA.getElem_inj_iff).mp hcon
      omega
    simp only [List.getElem_map] at hne ⊢
    exact lt_of_le_of_ne hle hne
  have hmemA_scored : ∀ x ∈ A, x ∈ scored := by
    intro x hx
    exact hpermS.mem_iff.mp (hsel_sub.subset (hpermA.mem_iff.mp hx))
  have hd : ∀ m ∈ result, ∃ x ∈ scored, m.scene_number = x.scene_number ∧ m.importance = x.score := by
    intro m hm
    rw [hres] at hm
    obtain ⟨i, hi, hmi⟩ := List.mem_iff_getElem.mp hm
    have hiA : i < A.length := by
      rw [List.length_mapIdx] at hi
      exact hi
    refine ⟨A[i], hmemA_scored _ (List.getElem_mem hiA), ?_, ?_⟩
    · rw [← hmi]
      simp only [List.getElem_mapIdx]
      dsimp only [mk_moment]
    · rw [← hmi]
      simp only [List.getElem_mapIdx]
      dsimp only [mk_moment]
  have he : ∀ m ∈ result, ∀ s ∈ scored, s.scene_number ∉ result.map Moment.scene_number →
      s.score < m.importance ∨ (s.score = m.importance ∧ m.scene_number < s.scene_number) := by
    intro m hm s hs hnot
    rw [hres] at hm
    obtain ⟨i, hi, hmi⟩ := List.mem_iff_getElem.mp hm
    have hiA : i < A.length := by
      rw [List.length_mapIdx] at hi
      exact hi
    have hmimp : m.importance = (A[i]).score := by
      rw [← hmi]
      simp only [List.getElem_mapIdx]
      dsimp only [mk_moment]
    have hmnum : m.scene_number = (A[i]).scene_number := by
      rw [← hmi]
      simp only [List.getElem_mapIdx]
      dsimp only [mk_moment]
    have hxsel : A[i] ∈ sel := hpermA.mem_iff.mp (List.getElem_mem hiA)
    obtain ⟨ix, hix, hxe⟩ := List.mem_iff_getElem.mp hxsel
    have hixn : ix < n := by
      rw [hlen_sel] at hix
      exact hix
    have hixS : ix < S.length := by
      rw [hlenS]
      omega
    have hSx : S[ix] = A[i] := by
      rw [← hxe]
      exact (List.getElem_take S).symm
    have hsS : s ∈ S := hpermS.mem_iff.mpr hs
    have hsplit : s ∈ sel ∨ s ∈ S.drop n := by
      rw [← List.mem_append, hsel, List.take_append_drop]
      exact hsS
    have hsdrop : s ∈ S.drop n := by
      rcases hsplit with hcase | hcase
      · exfalso
        apply hnot
        rw [hnums]
        exact ((hpermA.map SceneData.scene_number).mem_iff).mpr
          (List.mem_map_of_mem SceneData.scene_number hcase)
      · exact hcase
    obtain ⟨jd, hjd, hsd⟩ := List.mem_iff_getElem.mp hsdrop
    have hjdS : n + jd < S.length := by
      rw [List.length_drop] at hjd
      omega
    have hSs : S[n + jd] = s := by
      rw [← hsd]
      exact (List.getElem_drop S).symm
    have hsorted_pair : score_desc S[ix] S[n + jd] :=
      List.pairwise_iff_getElem.mp hsortS ix (n + jd) hixS hjdS (by omega)
    rw [hSx, hSs] at hsorted_pair
    have hle : s.score ≤ (A[i]).score := hsorted_pair
    rcases lt_or_eq_of_le hle with hlt | heq
    · left
      rw [hmimp]
      exact hlt
    · right
      refine ⟨by rw [hmimp]; exact heq, ?_⟩
      rw [hmnum]
      by_contra hcon
      have hb1 : ix < (S.map SceneData.scene_number).length := by
        rw [List.length_map]
        exact hixS
      have hb2 : n + jd < (S.map SceneData.scene_number).length := by
        rw [List.length_map]
        exact hjdS
      have hne_num : (A[i]).scene_number ≠ s.scene_number := by
        intro hceq
        have h1 : (S.map SceneData.scene_number)[ix] = (S.map SceneData.scene_number)[n + jd] := by
          simp only [List.getElem_map]
          rw [hSx, hSs]
          exact hceq
        have := (hnodup_numS.getElem_inj_iff).mp h1
        omega
      have hlt2 : s.scene_number < (A[i]).scene_number := by omega
      obtain ⟨ps, hps1, hps2⟩ := List.mem_iff_getElem.mp hs
      obtain ⟨px, hpx1, hpx2⟩ := List.mem_iff_getElem.mp (hmemA_scored _ (List.getElem_mem hiA))
      have hbs : ps < (scored.map SceneData.scene_number).length := by
        rw [List.length_map]
        exact hps1
      have hbx : px < (scored.map SceneData.scene_number).length := by
        rw [List.length_map]
        exact hpx1
      have hs_num : s.scene_number = 1 + ps := by
        have h1 : (scored.map SceneData.scene_number)[ps] = s.scene_number := by
          simp only [List.getElem_map]
          rw [hps2]
        have h2 : (scored.map SceneData.scene_number)[ps] = 1 + 1 * ps := by
          rw [List.getElem_of_eq hnum hbs]
          exact List.getElem_range' ps _
        rw [h1] at h2
        omega
      have hx_num : (A[i]).scene_number = 1 + px := by
        have h1 : (scored.map SceneData.scene_number)[px] = (A[i]).scene_number := by
          simp only [List.getElem_map]
          rw [hpx2]
        have h2 : (scored.map SceneData.scene_number)[px] = 1 + 1 * px := by
          rw [List.getElem_of_eq hnum hbx]
          exact List.getElem_range' px _
        rw [h1] at h2
        omega
      have hpslt : ps < px := by omega
      have hpair2 : [s, A[i]] <+ scored :=
        pair_sublist_pos scored s A[i] ps px hps1 hpx1 hpslt hps2 hpx2
      have hsx : score_desc s A[i] := le_of_eq heq.symm
      have hpairS2 : [s, A[i]] <+ S := List.pair_sublist_insertionSort hsx hpair2
      obtain ⟨p, q, hp, hq, hpq, hpe, hqe⟩ := sublist_pair_pos hpairS2
      have hps_eq : p = n + jd := by
        have h1 : S[p] = S[n + jd] := by
          rw [hpe, hSs]
        exact (hnodupS.getElem_inj_iff).mp h1
      have hq_eq : q = ix := by
        have h1 : S[q] = S[ix] := by
          rw [hqe, hSx]
        exact (hnodupS.getElem_inj_iff).mp h1
      omega
  exact ⟨hres_len, hframe, hpair, hd, he⟩

/-- C1: for any parsed scene list (scene numbers are exactly `1..k` in scan
order, as `_parse_scenes` guarantees) with at least `num_frames` scenes and
`num_frames ≥ 1`, `identify_key_moments` yields exactly `num_frames`
moments, strictly ascending in `scene_number`, with `frame_number` running
`1..num_frames` in that order; every moment carries the score of its scored
scene, and every scored scene left unselected either scores strictly below a
selected moment or ties it while coming later in scan order (the stable
descending sort keeps the earlier scene on ties). -/
theorem identify_key_moments_ok :
    ∀ (scenes : List SceneData) (num_frames : Nat),
      scenes.map SceneData.scene_number = List.range' 1 scenes.length →
      1 ≤ num_frames → num_frames ≤ scenes.length →
      (identify_key_moments scenes num_frames).length = num_frames ∧
      (identify_key_moments scenes num_frames).map Moment.frame_number =
        List.range' 1 num_frames ∧
      List.Pairwise (fun a b => a < b)
        ((identify_key_moments scenes num_frames).map Moment.scene_number) ∧
      (∀ m ∈ identify_key_moments scenes num_frames, ∃ x ∈ score_scenes scenes,
        m.scene_number = x.scene_number ∧ m.importance = x.score) ∧
      (∀ m ∈ identify_key_moments scenes num_frames, ∀ s ∈ score_scenes scenes,
        s.scene_number ∉ (identify_key_moments scenes num_frames).map Moment.scene_number →
        s.score < m.importance ∨ (s.score = m.importance ∧ m.scene_number < s.scene_number)) := by
  intro scenes num_frames hnum _hn1 hn2
  have hnum2 : (score_scenes scenes).map SceneData.scene_number =
      List.range' 1 (score_scenes scenes).length := by
    unfold score_scenes
    rw [List.map_map, List.length_map]
    have hcomp : (SceneData.scene_number ∘
        fun scene => { scene with score := score_scene scenes.length scene }) =
        SceneData.scene_number := funext fun sc => rfl
    rw [hcomp, hnum]
  have hn2' : num_frames ≤ (score_scenes scenes).length := by
    unfold score_scenes
    rw [List.length_map]
    exact hn2
  exact select_pipeline_ok (score_scenes scenes) num_frames
    (identify_key_moments scenes num_frames) rfl hnum2 hn2'

/-- A first concrete parsed scene for the C1 witness. -/
def sceneA : SceneData :=
  { scene_number := 1
    heading := "1. INT. ROOM - DAY"
    content := "JOHN fights the intruder."
    description := "JOHN fights the intruder."
    tone := "tense"
    characters := ["JOHN"]
    setting := "ROOM"
    score := 0 }

/-- A second concrete parsed scene for the C1 witness. -/
def sceneB : SceneData :=
  { scene_number := 2
    heading := "2. EXT. STREET - NIGHT"
    content := "MARY walks away."
    description := "MARY walks away."
    tone := "dramatic"
    characters := ["MARY"]
    setting := "STREET"
    score := 0 }

/-- Witness for C1 at the concrete two-scene list with one requested frame:
one moment comes back, frame numbers are `[1]`, and scene numbers are
strictly ascending. -/
theorem identify_key_moments_ok_witness :
    (identify_key_moments [sceneA, sceneB] 1).length = 1 ∧
    (identify_key_moments [sceneA, sceneB] 1).map Moment.frame_number = List.range' 1 1 ∧
    List.Pairwise (fun a b => a < b)
      ((identify_key_moments [sceneA, sceneB] 1).map Moment.scene_number) := by
  obtain ⟨h1, h2, h3, _, _⟩ :=
    identify_key_moments_ok [sceneA, sceneB] 1 (by decide) (by decide) (by decide)
  exact ⟨h1, h2, h3⟩

/-! ### `src/mcp_servers/screenplay_generator/story_analyzer.py`

`StoryStructureAnalyzer.analyze` first obtains a base analysis dict — from
the LLM via `_parse_analysis` when a client is present, else from
`_basic_analysis` — and then unconditionally overwrites `suggested_acts`,
`genre`, `dialogue_style` and `logline` (lines 65-77).  Claim C9 quantifies
over the backend and whatever text it returns, so the first phase is
abstracted as the `base` parameter; the overwriting phase is embedded
faithfully.  The dict is modelled as a structure holding the keys both
phases always populate. -/

/-- The apostrophe character, built by code point to keep string literals
free of quote characters. -/
def apos : Char := Char.ofNat 39

/-- The analysis dict (keys set by `_parse_analysis` / `_basic_analysis`
plus the ones `analyze` adds). -/
structure AnalysisDict where
  main_theme : String
  conflict : String
  protagonist : String
  antagonist : String
  setting : String
  key_plot_points : List String
  tone : String
  pacing : String
  suggested_acts : List String
  genre : String
  dialogue_style : String
  logline : String
deriving DecidableEq

/-- User input (`core/schemas.py` `StoryInput`); pydantic enforces
`min_length=10` on `prompt`. -/
structure StoryInput where
  prompt : String
  genre : String
  dialogue_style : String
  act_structure : String
deriving DecidableEq

/-- Models `_three_act_structure` (story_analyzer.py lines 191-197). -/
def three_act_structure : List String :=
  ["Act 1: Setup - Introduce protagonist, world, and conflict",
   "Act 2: Confrontation - Escalate conflict, protagonist faces obstacles",
   "Act 3: Resolution - Climax and resolution of conflict"]

/-- Models `_five_act_structure` (lines 199-207). -/
def five_act_structure : List String :=
  ["Act 1: Exposition - Introduce characters and setting",
   "Act 2: Rising Action - Conflict emerges and develops",
   "Act 3: Climax - Peak of dramatic tension",
   "Act 4: Falling Action - Consequences unfold",
   "Act 5: Denouement - Resolution and conclusion"]

/-- Models `_heros_journey_structure` (lines 209-224). -/
def heros_journey_structure : List String :=
  ["Ordinary World - Establish protagonist" ++ String.mk [apos] ++ "s normal life",
   "Call to Adventure - Inciting incident",
   "Refusal of the Call - Initial resistance",
   "Meeting the Mentor - Guidance received",
   "Crossing the Threshold - Commit to journey",
   "Tests, Allies, Enemies - Face challenges",
   "Approach to Inmost Cave - Prepare for ordeal",
   "Ordeal - Face greatest fear",
   "Reward - Gain something from ordeal",
   "The Road Back - Return journey begins",
   "Resurrection - Final test",
   "Return with Elixir - Transformed return"]

/-- The dictionary key of the third act structure. -/
def heros_journey_key : String := "Hero" ++ String.mk [apos] ++ "s Journey"

/-- Models the `self.act_structures` dict lookup with default
`_three_act_structure` (lines 27-31 and 66-69). -/
def act_structures (act_structure : String) : List String :=
  if act_structure = "Three-Act" then three_act_structure
  else if act_structure = "Five-Act" then five_act_structure
  else if act_structure = heros_journey_key then heros_journey_structure
  else three_act_structure

/-- Models `_generate_logline` (lines 255-273): naive templating from
protagonist, conflict and theme. -/
def generate_logline (analysis : AnalysisDict) (_story_input : StoryInput) : String :=
  analysis.protagonist ++ " must overcome " ++ analysis.conflict ++
    " in a story about " ++ analysis.main_theme ++ "."

/-- Models `StoryStructureAnalyzer.analyze` (lines 33-77) with the first
phase (`_parse_analysis` of the LLM text, or `_basic_analysis`) abstracted
as `base`: overwrite `suggested_acts`, `genre`, `dialogue_style`, then
`logline`. -/
def analyze (base : AnalysisDict) (story_input : StoryInput) : AnalysisDict :=
  let analysis := { base with
    suggested_acts := act_structures story_input.act_structure
    genre := story_input.genre
    dialogue_style := story_input.dialogue_style }
  { analysis with logline := generate_logline analysis story_input }

/-- C9: for any valid input (prompt length at least 10) and any base
analysis (hence regardless of LLM presence or output), `analyze` returns
`suggested_acts` equal to the fixed beat list of the chosen structure —
3 beats for Three-Act, 5 for Five-Act, 12 for the Hero journey key, the
Three-Act list for anything else — and therefore non-empty. -/
theorem analyze_suggested_acts_ok :
    ∀ (base : AnalysisDict) (story_input : StoryInput),
      10 ≤ story_input.prompt.length →
      (analyze base story_input).suggested_acts = act_structures story_input.act_structure ∧
      (story_input.act_structure = "Three-Act" →
        (analyze base story_input).suggested_acts = three_act_structure ∧
        (analyze base story_input).suggested_acts.length = 3) ∧
      (story_input.act_structure = "Five-Act" →
        (analyze base story_input).suggested_acts = five_act_structure ∧
        (analyze base story_input).suggested_acts.length = 5) ∧
      (story_input.act_structure = heros_journey_key →
        (analyze base story_input).suggested_acts = heros_journey_structure ∧
        (analyze base story_input).suggested_acts.length = 12) ∧
      (story_input.act_structure ≠ "Three-Act" → story_input.act_structure ≠ "Five-Act" →
        story_input.act_structure ≠ heros_journey_key →
        (analyze base story_input).suggested_acts = three_act_structure) ∧
      (analyze base story_input).suggested_acts ≠ [] := by
  intro base story_input _hlen
  have hsug : (analyze base story_input).suggested_acts =
      act_structures story_input.act_structure := rfl
  refine ⟨hsug, ?_, ?_, ?_, ?_, ?_⟩
  · intro heq
    rw [hsug]
    unfold act_structures
    rw [if_pos heq]
    exact ⟨rfl, rfl⟩
  · intro heq
    rw [hsug]
    unfold act_structures
    rw [if_neg (by rw [heq]; decide), if_pos heq]
    exact ⟨rfl, rfl⟩
  · intro heq
    rw [hsug]
    unfold act_structures
    rw [if_neg (by rw [heq]; decide), if_neg (by rw [heq]; decide), if_pos heq]
    exact ⟨rfl, rfl⟩
  · intro h1 h2 h3
    rw [hsug]
    unfold act_structures
    rw [if_neg h1, if_neg h2, if_neg h3]
  · rw [hsug]
    unfold act_structures
    split_ifs <;> decide

/-- An arbitrary base analysis dict for the C9 witness. -/
def base0 : AnalysisDict :=
  { main_theme := "transformation"
    conflict := "internal challenges"
    protagonist := "Detective"
    antagonist := "Forces of opposition"
    setting := "Contemporary urban environment"
    key_plot_points := []
    tone := "tense"
    pacing := "moderate"
    suggested_acts := []
    genre := ""
    dialogue_style := ""
    logline := "" }

/-- A concrete valid story input for the C9 witness. -/
def si0 : StoryInput :=
  { prompt := "A detective discovers the killer"
    genre := "Thriller"
    dialogue_style := "Realistic"
    act_structure := "Five-Act" }

/-- Witness for C9: a valid Five-Act input gets exactly the five-beat list
regardless of the base analysis. -/
theorem analyze_suggested_acts_ok_witness :
    (analyze base0 si0).suggested_acts = five_act_structure ∧
    (analyze base0 si0).suggested_acts.length = 5 ∧
    (analyze base0 si0).suggested_acts ≠ [] := by
  obtain ⟨_, _, h5, _, _, hne⟩ := analyze_suggested_acts_ok base0 si0 (by decide)
  obtain ⟨ha, hb⟩ := h5 rfl
  exact ⟨ha, hb, hne⟩

/-! ### `src/mcp_servers/screenplay_generator/story_analyzer.py` —
`identify_key_scenes` (lines 275-317).  Python would raise
`ZeroDivisionError` on an empty `suggested_acts`; the claim presupposes a
non-empty act list, and the embedding uses `Nat` division (yielding the
empty result) outside that hypothesis. -/

/-- The `act_name` string of the loop (line 299). -/
def act_name_of (act_idx : Nat) : String :=
  "Act " ++ toString (act_idx + 1)

/-- One scene outline dict (lines 306-312). -/
structure SceneOutline where
  scene_number : Nat
  act : String
  purpose : String
  setting : String
  tone : String
deriving DecidableEq

/-- The scene dict built in the inner loop body (lines 301-312): `i` is the
inner index, `scene_number` the running counter at act entry. -/
def outline_of (analysis : AnalysisDict) (plot_points : List String)
    (scenes_per_act act_idx scene_number : Nat) (i : Nat) : SceneOutline :=
  { scene_number := scene_number + i
    act := act_name_of act_idx
    purpose := plot_points.getD (act_idx * scenes_per_act + i)
      ("Develop " ++ act_name_of act_idx)
    setting := analysis.setting
    tone := analysis.tone }

/-- The nested loops of `identify_key_scenes` (lines 297-315): for each act,
`scenes_per_act` scenes, with a running scene counter and the plot point
index `act_idx * scenes_per_act + i`. -/
def scenes_for_acts (analysis : AnalysisDict) (plot_points : List String)
    (scenes_per_act : Nat) : List String → Nat → Nat → List SceneOutline
  | [], _, _ => []
  | _act :: rest, act_idx, scene_number =>
      (List.range scenes_per_act).map
        (outline_of analysis plot_points scenes_per_act act_idx scene_number)
      ++ scenes_for_acts analysis plot_points scenes_per_act rest (act_idx + 1)
          (scene_number + scenes_per_act)

/-- Models `StoryStructureAnalyzer.identify_key_scenes` (lines 275-317). -/
def identify_key_scenes (analysis : AnalysisDict) (num_scenes : Nat) : List SceneOutline :=
  let act_structure := analysis.suggested_acts
  let plot_points := analysis.key_plot_points
  let scenes_per_act := num_scenes / act_structure.length
  (scenes_for_acts analysis plot_points scenes_per_act act_structure 0 1).take num_scenes

lemma scenes_for_acts_length (analysis : AnalysisDict) (pp : List String) (spa : Nat) :
    ∀ (acts : List String) (k s : Nat),
      (scenes_for_acts analysis pp spa acts k s).length = spa * acts.length := by
  intro acts
  induction acts with
  | nil => intro k s; simp [scenes_for_acts]
  | cons a rest ih =>
    intro k s
    simp only [scenes_for_acts, List.length_append, List.length_map, List.length_range, ih,
      List.length_cons]
    ring

lemma scenes_for_acts_get (analysis : AnalysisDict) (pp : List String) (spa : Nat)
    (hspa : 0 < spa) :
    ∀ (acts : List String) (k s j : Nat)
      (hj : j < (scenes_for_acts analysis pp spa acts k s).length),
      (scenes_for_acts analysis pp spa acts k s)[j] =
        { scene_number := s + j
          act := act_name_of (k + j / spa)
          purpose := pp.getD (k * spa + j) ("Develop " ++ act_name_of (k + j / spa))
          setting := analysis.setting
          tone := analysis.tone } := by
  intro acts
  induction acts with
  | nil =>
    intro k s j hj
    rw [scenes_for_acts_length] at hj
    simp at hj
  | cons a rest ih =>
    intro k s j hj
    by_cases hcase : j < spa
    · have hmlen : j < ((List.range spa).map (outline_of analysis pp spa k s)).length := by
        rw [List.length_map, List.length_range]
        exact hcase
      simp only [scenes_for_acts]
      rw [List.getElem_append_left hmlen, List.getElem_map,
        List.getElem_range, Nat.div_eq_of_lt hcase]
      rfl
    · push_neg at hcase
      have hmlen : ((List.range spa).map (outline_of analysis pp spa k s)).length ≤ j := by
        rw [List.length_map, List.length_range]
        exact hcase
      have hsub : ((List.range spa).map (outline_of analysis pp spa k s)).length = spa := by
        rw [List.length_map, List.length_range]
      simp only [scenes_for_acts]
      rw [List.getElem_append_right hmlen]
      have hjr : j - ((List.range spa).map (outline_of analysis pp spa k s)).length <
          (scenes_for_acts analysis pp spa rest (k + 1) (s + spa)).length := by
        rw [hsub, scenes_for_acts_length]
        rw [scenes_for_acts_length] at hj
        simp only [List.length_cons] at hj
        have hmul : spa * (rest.length + 1) = spa * rest.length + spa := by ring
        omega
      rw [ih (k + 1) (s + spa) (j - ((List.range spa).map (outline_of analysis pp spa k s)).length) hjr]
      have hdiv : j / spa = (j - spa) / spa + 1 := Nat.div_eq_sub_div hspa hcase
      have h1 : s + spa + (j - spa) = s + j := by omega
      have h2 : k + 1 + (j - spa) / spa = k + j / spa := by omega
      have h3 : (k + 1) * spa + (j - spa) = k * spa + j := by
        rw [Nat.succ_mul]
        omega
      rw [hsub, h1, h2, h3]

/-- C3: with a non-empty act list of length `A`, `identify_key_scenes`
returns exactly `(num_scenes / A) * A` outlines (integer division, the
remainder dropped), numbered consecutively from 1, and each outline takes
its purpose positionally from `key_plot_points` when the index is in range,
else the generic string `Develop {act}` for that outline's act. -/
theorem identify_key_scenes_ok :
    ∀ (analysis : AnalysisDict) (num_scenes : Nat),
      analysis.suggested_acts ≠ [] →
      (identify_key_scenes analysis num_scenes).length =
        num_scenes / analysis.suggested_acts.length * analysis.suggested_acts.length ∧
      (identify_key_scenes analysis num_scenes).map SceneOutline.scene_number =
        List.range' 1
          (num_scenes / analysis.suggested_acts.length * analysis.suggested_acts.length) ∧
      (∀ (j : Nat) (hj : j < (identify_key_scenes analysis num_scenes).length),
        ((identify_key_scenes analysis num_scenes)[j]).purpose =
          analysis.key_plot_points.getD j
            ("Develop " ++ ((identify_key_scenes analysis num_scenes)[j]).act)) := by
  intro analysis n _hne
  have hfull : identify_key_scenes analysis n =
      scenes_for_acts analysis analysis.key_plot_points
        (n / analysis.suggested_acts.length) analysis.suggested_acts 0 1 := by
    unfold identify_key_scenes
    dsimp only
    apply List.take_of_length_le
    rw [scenes_for_acts_length]
    exact Nat.div_mul_le_self n _
  have hlen : (identify_key_scenes analysis n).length =
      n / analysis.suggested_acts.length * analysis.suggested_acts.length := by
    rw [hfull, scenes_for_acts_length]
  refine ⟨hlen, ?_, ?_⟩
  · apply List.ext_getElem
    · rw [List.length_map, hlen, List.length_range']
    · intro i h1 h2
      have hiL : i < (identify_key_scenes analysis n).length := by
        rw [List.length_map] at h1
        exact h1
      have hspa : 0 < n / analysis.suggested_acts.length := by
        rcases Nat.eq_zero_or_pos (n / analysis.suggested_acts.length) with h0 | hpos
        · rw [hlen, h0] at hiL
          simp at hiL
        · exact hpos
      rw [List.getElem_map, List.getElem_range',
        List.getElem_of_eq hfull hiL,
        scenes_for_acts_get analysis analysis.key_plot_points
          (n / analysis.suggested_acts.length) hspa analysis.suggested_acts 0 1 i
          (by rw [← hfull]; exact hiL)]
      show 1 + i = 1 + 1 * i
      omega
  · intro j hj
    have hspa : 0 < n / analysis.suggested_acts.length := by
      rcases Nat.eq_zero_or_pos (n / analysis.suggested_acts.length) with h0 | hpos
      · rw [hlen, h0] at hj
        simp at hj
      · exact hpos
    rw [List.getElem_of_eq hfull hj,
      scenes_for_acts_get analysis analysis.key_plot_points
        (n / analysis.suggested_acts.length) hspa analysis.suggested_acts 0 1 j
        (by rw [← hfull]; exact hj)]
    simp only [Nat.zero_mul, Nat.zero_add]

/-- A concrete analysis with two acts and one plot point, for the C3
witness. -/
def analysis0 : AnalysisDict :=
  { main_theme := "transformation"
    conflict := "internal challenges"
    protagonist := "Detective"
    antagonist := "Forces of opposition"
    setting := "Contemporary urban environment"
    key_plot_points := ["Opening - Introduce protagonist and world"]
    tone := "tense"
    pacing := "moderate"
    suggested_acts := ["Act 1: Setup", "Act 2: Resolution"]
    genre := "Thriller"
    dialogue_style := "Realistic"
    logline := "" }

/-- Witness for C3: two acts and five requested scenes give `5 / 2 * 2 = 4`
outlines numbered 1..4. -/
theorem identify_key_scenes_ok_witness :
    (identify_key_scenes analysis0 5).length = 5 / 2 * 2 ∧
    (identify_key_scenes analysis0 5).map SceneOutline.scene_number =
      List.range' 1 (5 / 2 * 2) := by
  obtain ⟨h1, h2, _⟩ := identify_key_scenes_ok analysis0 5 (by decide)
  exact ⟨h1, h2⟩

/-! ### `src/core/schemas.py` — `ScreenplayOutput.to_formatted_text`

The method builds a `lines` list (title page, optional character block,
then per-scene heading/action/dialogue blocks) and joins it with newlines
(lines 131-167).  `datetime` formatting is opaque string data here:
`created_at` is modelled as the already-`strftime`-formatted string.
Python truthiness tests (`if scene.action:`, `if dialogue.parenthetical:`,
`if char.age`) are modelled explicitly. -/

/-- `core/schemas.py` `CharacterProfile` (the fields used by rendering). -/
structure CharacterProfile where
  name : String
  age : Option Nat
  role : String
  description : String
  personality_traits : List String
  visual_description : String
  motivation : Option String
  arc : Option String
  embedding_id : Option String
deriving DecidableEq

/-- `core/schemas.py` `SceneLocation`. -/
structure SceneLocation where
  setting : String
  location : String
  time : String
deriving DecidableEq

/-- `core/schemas.py` `DialogueLine`. -/
structure DialogueLine where
  character : String
  line : String
  parenthetical : Option String
deriving DecidableEq

/-- `core/schemas.py` `Scene`. -/
structure Scene where
  scene_number : Nat
  location : SceneLocation
  action : String
  dialogue : List DialogueLine
  page_number : Option Nat
deriving DecidableEq

/-- `core/schemas.py` `ScreenplayMetadata`, with `created_at` as the
formatted date string. -/
structure ScreenplayMetadata where
  title : String
  author : String
  draft : String
  created_at : String
  genre : String
  logline : Option String
deriving DecidableEq

/-- `core/schemas.py` `ScreenplayOutput`. -/
structure ScreenplayOutput where
  metadata : ScreenplayMetadata
  characters : List CharacterProfile
  scenes : List Scene
  page_count : Nat
deriving DecidableEq

/-- A run of `n` spaces (the `' ' * n` paddings). -/
def spaces (n : Nat) : String :=
  String.mk (List.replicate n ' ')

/-- The `"="*60` separator. -/
def sep60 : String :=
  String.mk (List.replicate 60 '=')

/-- The heading f-string of line 153:
`{number}. {SETTING}. {LOCATION} - {TIME}` (before uppercasing). -/
def heading_of (scene : Scene) : String :=
  toString scene.scene_number ++ ". " ++ scene.location.setting ++ ". " ++
    scene.location.location ++ " - " ++ scene.location.time

/-- The heading line appended at line 154: `f"\n{heading.upper()}\n"`. -/
def heading_line (scene : Scene) : String :=
  "\n" ++ pyUpper (heading_of scene) ++ "\n"

/-- The lines a single dialogue entry contributes (lines 161-165). -/
def dialogue_lines (dialogue : DialogueLine) : List String :=
  ["\n" ++ spaces 20 ++ pyUpper dialogue.character]
  ++ (match dialogue.parenthetical with
      | some p => if p = "" then [] else [spaces 15 ++ "(" ++ p ++ ")"]
      | none => [])
  ++ [spaces 10 ++ dialogue.line ++ "\n"]

/-- The lines a single scene contributes (lines 151-165). -/
def scene_lines (scene : Scene) : List String :=
  [heading_line scene]
  ++ (if scene.action = "" then [] else [scene.action ++ "\n"])
  ++ scene.dialogue.flatMap dialogue_lines

/-- One character-list line (lines 145-147), with Python truthiness on
`age` (an age of 0 renders as no age). -/
def character_line (char : CharacterProfile) : String :=
  let age_str := match char.age with
    | some a => if a = 0 then "" else ", " ++ toString a
    | none => ""
  "  " ++ pyUpper char.name ++ age_str ++ " - " ++ char.description

/-- The full `lines` list of `to_formatted_text` (lines 133-165). -/
def to_formatted_text_lines (s : ScreenplayOutput) : List String :=
  [pyUpper s.metadata.title,
   "\nby " ++ s.metadata.author,
   "\n" ++ s.metadata.draft,
   "\n" ++ s.metadata.created_at,
   "\n" ++ sep60 ++ "\n"]
  ++ (if s.characters = [] then [] else
       ["\nCHARACTERS:\n"] ++ s.characters.map character_line ++ ["\n" ++ sep60 ++ "\n"])
  ++ s.scenes.flatMap scene_lines

/-- Models `"\n".join(lines)` (line 167). -/
def join_nl : List String → String
  | [] => ""
  | [a] => a
  | a :: b :: rest => a ++ "\n" ++ join_nl (b :: rest)

/-- Models `ScreenplayOutput.to_formatted_text` (lines 131-167). -/
def to_formatted_text (s : ScreenplayOutput) : String :=
  join_nl (to_formatted_text_lines s)

/-- Ascending scene-number order on rendered scenes. -/
def scene_num_le (a b : Scene) : Prop := a.scene_number ≤ b.scene_number

instance : DecidableRel scene_num_le :=
  fun a b => inferInstanceAs (Decidable (a.scene_number ≤ b.scene_number))

/-- Claim C4 as stated, formalised: every scene's heading line occurs in the
rendered text, and the heading lines listed in ascending scene-number order
(the stable sort of the scene list) form a subsequence of the rendered line
list. -/
def claim_c4 (s : ScreenplayOutput) : Prop :=
  (∀ sc ∈ s.scenes, ∃ u v : List Char,
    (to_formatted_text s).data = u ++ (heading_line sc).data ++ v) ∧
  (s.scenes.insertionSort scene_num_le).map heading_line <+ to_formatted_text_lines s

lemma join_nl_splits {x : String} : ∀ {l : List String}, x ∈ l →
    ∃ u v : List Char, (join_nl l).data = u ++ x.data ++ v := by
  intro l
  induction l with
  | nil =>
    intro h
    exact absurd h (List.not_mem_nil x)
  | cons a t ih =>
    intro h
    cases t with
    | nil =>
      have hx : x = a := List.mem_singleton.mp h
      exact ⟨[], [], by rw [hx]; simp [join_nl]⟩
    | cons b t2 =>
      rcases List.mem_cons.mp h with hx | h2
      · exact ⟨[], ("\n" ++ join_nl (b :: t2)).data, by
          rw [hx]
          simp [join_nl, String.data_append, List.append_assoc]⟩
      · obtain ⟨u, v, hu⟩ := ih h2
        exact ⟨(a ++ "\n").data ++ u, v, by
          simp only [join_nl, String.data_append, hu, List.append_assoc]⟩

lemma map_heading_sublist_flatMap :
    ∀ scenes : List Scene, scenes.map heading_line <+ scenes.flatMap scene_lines := by
  intro scenes
  induction scenes with
  | nil => simp
  | cons a t ih =>
    show heading_line a :: t.map heading_line <+ scene_lines a ++ t.flatMap scene_lines
    show heading_line a :: t.map heading_line <+
      heading_line a ::
        (((if a.action = "" then [] else [a.action ++ "\n"]) ++ a.dialogue.flatMap dialogue_lines)
          ++ t.flatMap scene_lines)
    exact List.Sublist.cons₂ _ (ih.trans (List.sublist_append_right _ _))

lemma map_heading_sublist (s : ScreenplayOutput) :
    s.scenes.map heading_line <+ to_formatted_text_lines s := by
  unfold to_formatted_text_lines
  exact (map_heading_sublist_flatMap s.scenes).trans (List.sublist_append_right _ _)

lemma heading_line_mem (s : ScreenplayOutput) {sc : Scene} (h : sc ∈ s.scenes) :
    heading_line sc ∈ to_formatted_text_lines s := by
  unfold to_formatted_text_lines
  rw [List.mem_append]
  right
  rw [List.mem_flatMap]
  exact ⟨sc, h, by unfold scene_lines; exact List.mem_cons_self _ _⟩

/-- C4 (amended): for a screenplay whose scene list is already in ascending
scene-number order — as the generation pipeline produces — every scene's
heading line occurs in `to_formatted_text`, and the headings appear as a
subsequence of the rendered lines in ascending scene-number order.  Without
the ordering hypothesis the claim fails (see the counterexample). -/
theorem to_formatted_text_ok :
    ∀ s : ScreenplayOutput,
      List.Pairwise (fun a b => a.scene_number ≤ b.scene_number) s.scenes →
      claim_c4 s := by
  intro s hsorted
  constructor
  · intro sc hsc
    exact join_nl_splits (heading_line_mem s hsc)
  · have hid : s.scenes.insertionSort scene_num_le = s.scenes :=
      List.Sorted.insertionSort_eq hsorted
    rw [hid]
    exact map_heading_sublist s

/-- A screenplay whose scenes arrive in descending scene-number order. -/
def sp_bad : ScreenplayOutput :=
  { metadata :=
      { title := "t"
        author := "a"
        draft := "First Draft"
        created_at := "January 01, 2025"
        genre := "Drama"
        logline := none }
    characters := []
    scenes :=
      [{ scene_number := 2
         location := { setting := "INT", location := "B", time := "DAY" }
         action := ""
         dialogue := []
         page_number := none },
       { scene_number := 1
         location := { setting := "INT", location := "A", time := "DAY" }
         action := ""
         dialogue := []
         page_number := none }]
    page_count := 4 }

/-- Counterexample to C4 as stated: on `sp_bad` the headings occur in list
order (2 then 1), so the ascending-order subsequence property fails — the
renderer emits scenes in list order and never sorts them. -/
theorem to_formatted_text_counterexample : ¬ claim_c4 sp_bad := by
  intro h
  exact absurd h.2 (by decide)

/-- The same screenplay with its scenes sorted ascending. -/
def sp_good : ScreenplayOutput :=
  { sp_bad with
    scenes :=
      [{ scene_number := 1
         location := { setting := "INT", location := "A", time := "DAY" }
         action := ""
         dialogue := []
         page_number := none },
       { scene_number := 2
         location := { setting := "INT", location := "B", time := "DAY" }
         action := ""
         dialogue := []
         page_number := none }] }

/-- Witness for the amended C4 at the concrete sorted screenplay. -/
theorem to_formatted_text_ok_witness :
    (sp_good.scenes.insertionSort scene_num_le).map heading_line <+
      to_formatted_text_lines sp_good := by
  exact (to_formatted_text_ok sp_good (by decide)).2

/-! ### `src/mcp_servers/screenplay_generator/scene_writer.py` —
`ScreenplaySceneWriter._parse_location` (lines 365-404)

The two Python regexes are embedded as specialised backtracking matchers
over `List Char` that explore choice points in exactly the order the `re`
module does: ordered alternation (`INT` before `EXT` before `INT/EXT`),
greedy `\.?` and `\s*` (longest first), lazy `(.+?)` (shortest first),
greedy `(.+)` (longest run of non-newline characters), `re.IGNORECASE`
comparison, and `re.match` anchoring only at the start. -/

/-- Python `\s` (ASCII whitespace). -/
def isSpaceChar (c : Char) : Bool :=
  c = ' ' || c = '\t' || c = '\n' || c = '\r' || c = Char.ofNat 11 || c = Char.ofNat 12

/-- Python `str.strip()`. -/
def strip_chars (s : List Char) : List Char :=
  ((s.dropWhile isSpaceChar).reverse.dropWhile isSpaceChar).reverse

/-- Case-insensitive literal match (`re.IGNORECASE`); returns the rest of
the input on success. -/
def matchCI : List Char → List Char → Option (List Char)
  | [], rest => some rest
  | _ :: _, [] => none
  | p :: ps, c :: cs => if c.toLower = p.toLower then matchCI ps cs else none

/-- The rests reachable by `\s*`, greedy order (all spaces first, none
last). -/
def spacesSplits (s : List Char) : List (List Char) :=
  let k := (s.takeWhile isSpaceChar).length
  (List.range (k + 1)).map (fun i => s.drop (k - i))

/-- The rests reachable by `\.?`, greedy order (dot consumed first). -/
def dotSplits (s : List Char) : List (List Char) :=
  match s with
  | '.' :: rest => [rest, '.' :: rest]
  | _ => [s]

/-- What `.` matches without `re.DOTALL`: any character but a newline. -/
def dotChar (c : Char) : Bool := c ≠ '\n'

/-- The `(INT|EXT|INT/EXT)` alternatives, in pattern order. -/
def setting_alts : List (List Char) :=
  ["INT".data, "EXT".data, "INT/EXT".data]

/-- The `(DAY|NIGHT|DAWN|DUSK|CONTINUOUS)` alternatives, in pattern
order. -/
def time_words : List (List Char) :=
  ["DAY".data, "NIGHT".data, "DAWN".data, "DUSK".data, "CONTINUOUS".data]

/-- Matches the time alternation and returns the matched input slice
(group 3). -/
def tryTime (s : List Char) : Option (List Char) :=
  time_words.findSome? (fun t => (matchCI t s).map (fun _ => s.take t.length))

/-- Matches `\s*-\s*(DAY|NIGHT|DAWN|DUSK|CONTINUOUS)` after the lazy group,
returning group 3. -/
def afterLazyGroup (r : List Char) : Option (List Char) :=
  (spacesSplits r).findSome? (fun r4 =>
    match r4 with
    | '-' :: r5 => (spacesSplits r5).findSome? (fun r6 => tryTime r6)
    | _ => none)

/-- The strict heading regex of line 381:
`(INT|EXT|INT/EXT)\.?\s*(.+?)\s*-\s*(DAY|NIGHT|DAWN|DUSK|CONTINUOUS)` with
`re.match` and `re.IGNORECASE`; returns the three group slices. -/
def match_location_regex (s : List Char) :
    Option (List Char × List Char × List Char) :=
  setting_alts.findSome? (fun p =>
    (matchCI p s).bind (fun r1 =>
      (dotSplits r1).findSome? (fun r2 =>
        (spacesSplits r2).findSome? (fun r3 =>
          (List.range r3.length).findSome? (fun nm1 =>
            let g2 := r3.take (nm1 + 1)
            if g2.all dotChar then
              (afterLazyGroup (r3.drop (nm1 + 1))).map
                (fun g3 => (s.take p.length, g2, g3))
            else none)))))

/-- The fallback regex of line 395: `(INT|EXT|INT/EXT)\.?\s*(.+)` with
`re.match` and `re.IGNORECASE`; returns groups 1 and 2. -/
def match_setting_rest (s : List Char) : Option (List Char × List Char) :=
  setting_alts.findSome? (fun p =>
    (matchCI p s).bind (fun r1 =>
      (dotSplits r1).findSome? (fun r2 =>
        (spacesSplits r2).findSome? (fun r3 =>
          let run := r3.takeWhile dotChar
          if run.isEmpty then none else some (s.take p.length, run)))))

/-- Python `location_str.split('-')` (split on every dash). -/
def split_dash : List Char → List (List Char)
  | [] => [[]]
  | c :: t =>
    let r := split_dash t
    if c = '-' then [] :: r
    else
      match r with
      | [] => [[c]]
      | h :: t2 => (c :: h) :: t2

/-- Models `ScreenplaySceneWriter._parse_location` (scene_writer.py lines
365-404): strict regex first, then the dash-split fallback with a
case-sensitive `startswith(('INT', 'EXT'))` test, defaults
`{INT, LOCATION, DAY}`. -/
def parse_location (location_str : String) : SceneLocation :=
  match match_location_regex location_str.data with
  | some (g1, g2, g3) =>
      { setting := pyUpper (String.mk g1)
        location := pyUpper (String.mk (strip_chars g2))
        time := pyUpper (String.mk g3) }
  | none =>
      let parts := split_dash location_str.data
      if 2 ≤ parts.length then
        let time2 := pyUpper (String.mk (strip_chars (parts.getLastD [])))
        let loc_part := strip_chars (parts.headD [])
        if leadsWith "INT".data loc_part || leadsWith "EXT".data loc_part then
          match match_setting_rest loc_part with
          | some (g1, g2) =>
              { setting := pyUpper (String.mk g1)
                location := pyUpper (String.mk (strip_chars g2))
                time := time2 }
          | none => { setting := "INT", location := "LOCATION", time := time2 }
        else { setting := "INT", location := "LOCATION", time := time2 }
      else { setting := "INT", location := "LOCATION", time := "DAY" }

/-- C8: the scene-location parser is total (it is a function returning a
`SceneLocation` on every input — the Python code never raises);
`"INT. COFFEE SHOP - DAY"` parses to `{INT, COFFEE SHOP, DAY}`, and an
input matching neither the strict regex nor the dash fallback, such as
`"somewhere vague"`, yields the default `{INT, LOCATION, DAY}`. -/
theorem parse_location_ok :
    (∀ s : String, ∃ loc : SceneLocation, parse_location s = loc) ∧
    parse_location "INT. COFFEE SHOP - DAY" =
      { setting := "INT", location := "COFFEE SHOP", time := "DAY" } ∧
    parse_location "somewhere vague" =
      { setting := "INT", location := "LOCATION", time := "DAY" } := by
  refine ⟨fun s => ⟨parse_location s, rfl⟩, by decide, by decide⟩
